import Mathlib

/-
Verification of the pdf-rag-qa backend (file validation, storage-path
generation, document repository, document service, auth logout) against its
natural-language specification.  Python code is shallowly embedded: pure
helpers become Lean functions, the Supabase storage bucket and the documents
table become explicit state records, exceptions become Except / Option
results, and the success or failure of each outbound call to the external
provider is an explicit boolean input.  String primitives are implemented
structurally over List Char so that every definition evaluates by kernel
reduction.
-/

/-- HTTP error carrying a status code and a detail message, embedding the
HTTPException values raised by the Python code. -/
structure HTTPError where
  statusCode : Nat
  detail : String
deriving Repr, DecidableEq

instance : DecidableEq (Except HTTPError Unit) := fun a b =>
  match a, b with
  | .ok (), .ok () => isTrue rfl
  | .error e, .error f =>
      if h : e = f then isTrue (by rw [h]) else isFalse (by simp [h])
  | .ok (), .error _ => isFalse (by simp)
  | .error _, .ok () => isFalse (by simp)

/-- Inbound multipart file as seen by FileValidator.validate_pdf: the declared
filename, the declared content type, and the byte length of the payload.  A
missing file (Python None) is modelled as Option.none at use sites. -/
structure UploadFile where
  filename : String
  contentType : String
  sizeBytes : Nat
deriving Repr, DecidableEq

/-- Embedding of Python str.lower restricted to ASCII (exact on ASCII data;
the code only compares against the ASCII literal .pdf). -/
def strLower (s : String) : String :=
  String.mk (s.data.map Char.toLower)

/-- Embedding of Python str.endswith: the second string read backwards is an
initial segment of the first read backwards. -/
def strEndsWith (s t : String) : Bool :=
  t.data.reverse.isPrefixOf s.data.reverse

/-- Embedding of FileValidator.validate_pdf (src/utils/file_utils.py, lines
10-65): checks presence, declared MIME type, .pdf extension
(case-insensitively), size against max_size_mb megabytes (413 when above),
and non-emptiness, in this order, raising the first failing check. -/
def validate_pdf (file : Option UploadFile) (max_size_mb : Nat)
    (allowed_types : List String) : Except HTTPError Unit :=
  match file with
  | none => .error ⟨400, "No file provided"⟩
  | some f =>
    if f.contentType ∉ allowed_types then
      .error ⟨400, "Invalid file type. Only PDF files are allowed. Got: " ++ f.contentType⟩
    else if ¬ (strEndsWith (strLower f.filename) ".pdf" = true) then
      .error ⟨400, "File must have .pdf extension"⟩
    else if f.sizeBytes > max_size_mb * 1024 * 1024 then
      .error ⟨413, "File too large. Maximum size: " ++ toString max_size_mb ++ "MB"⟩
    else if f.sizeBytes = 0 then
      .error ⟨400, "File is empty"⟩
    else
      .ok ()

/-- Splitting a character list at slashes, the list-level counterpart of the
component split performed by Python pathlib on a POSIX path string. -/
def splitSlash : List Char → List (List Char)
  | [] => [[]]
  | c :: cs =>
    match splitSlash cs with
    | [] => [[c]]
    | h :: t => if c = '/' then [] :: h :: t else (c :: h) :: t

/-- Embedding of Python pathlib PurePosixPath(s).name: the last path
component after dropping empty and single-dot components (a trailing
double-dot component is kept, as pathlib does not resolve it). -/
def posixBaseName (s : String) : String :=
  String.mk
    (((splitSlash s.data).filter (fun c => c ≠ [] && c ≠ ['.'])).getLast?.getD [])

/-- Python regex class backslash-w of the sanitizing substitution: ASCII
letters, digits and underscore.  Python also counts non-ASCII word
characters; the model is exact on ASCII inputs, and the theorems that
enumerate the kept set are stated for ASCII data. -/
def pyWordChar (c : Char) : Bool :=
  c.isAlphanum || c = '_'

/-- Python regex class backslash-s: the six ASCII whitespace characters
space, tab, newline, carriage return, vertical tab and form feed (Python
also counts non-ASCII spaces; exact on ASCII). -/
def pySpaceChar (c : Char) : Bool :=
  c = ' ' || c = '\t' || c = '\n' || c = '\r' || c = Char.ofNat 11 || c = Char.ofNat 12

/-- Characters kept by the substitution re.sub applied in sanitize_filename
(src/utils/file_utils.py line 80): word characters, whitespace characters,
hyphen and dot; every other character is deleted. -/
def keptChar (c : Char) : Bool :=
  pyWordChar c || pySpaceChar c || c = '-' || c = '.'

/-- Embedding of Python s.rsplit(".", 1) restricted to the case the code
needs: some (stem, ext) splits at the last dot, none when the string has no
dot (where the Python two-name unpacking raises ValueError). -/
def rsplitDot (s : String) : Option (String × String) :=
  match (s.data.reverse).dropWhile (fun c => c ≠ '.') with
  | [] => none
  | _ :: stemRev =>
      some (String.mk stemRev.reverse,
            String.mk ((s.data.reverse).takeWhile (fun c => c ≠ '.')).reverse)

/-- The intermediate value of sanitize_filename after the basename step and
the character substitution, before the length check. -/
def sanitized_base (filename : String) : String :=
  String.mk ((posixBaseName filename).data.filter keptChar)

/-- Embedding of FileValidator.sanitize_filename (src/utils/file_utils.py,
lines 67-86): basename, character substitution, and when the result is
longer than 255 characters a split at the last dot keeping the first 250
characters of the stem.  The no-dot overlong case returns none, embedding
the uncaught ValueError of the two-name unpacking of rsplit. -/
def sanitize_filename (filename : String) : Option String :=
  let cleaned := sanitized_base filename
  if cleaned.length > 255 then
    (rsplitDot cleaned).map
      (fun p => String.mk (p.1.data.take 250) ++ "." ++ p.2)
  else
    some cleaned

/-- Embedding of FileValidator.generate_storage_path (src/utils/file_utils.py,
lines 88-106).  The freshly generated uuid4 is an explicit input
document_id; the storage path is user_id / document_id _ sanitized name.
Returns none when sanitize_filename raises. -/
def generate_storage_path (user_id : String) (document_id : String)
    (filename : String) : Option (String × String) :=
  (sanitize_filename filename).map
    (fun sanitized_name => (document_id, user_id ++ "/" ++ document_id ++ "_" ++ sanitized_name))

/-- The character set the specification names for sanitization: ASCII
letters, digits, underscore, dot, hyphen and the space character. -/
def specCharSet (c : Char) : Bool :=
  c.isAlphanum || c = '_' || c = '.' || c = '-' || c = ' '

example : sanitize_filename "a\tb.pdf" = some "a\tb.pdf" := by decide
example : sanitize_filename "../../etc/passwd" = some "passwd" := by decide
example : posixBaseName "a/.." = ".." := by decide
example : posixBaseName "" = "" := by decide
example : posixBaseName "/abs/path.pdf" = "path.pdf" := by decide
example : rsplitDot "ab.cd.ef" = some ("ab.cd", "ef") := by decide
example : rsplitDot "abcd" = none := by decide
example : validate_pdf (some ⟨"empty.pdf", "application/pdf", 0⟩) 5 ["application/pdf"]
    = .error ⟨400, "File is empty"⟩ := by decide
example : validate_pdf (some ⟨"A.PDF", "application/pdf", 3⟩) 5 ["application/pdf"]
    = .ok () := by decide

/-- Row of the documents table (src/repositories/document_repository.py).
Metadata is a string-keyed record; created_at is the timestamp the database
assigns on insert, modelled as a natural number. -/
structure DBRow where
  id : String
  user_id : String
  file_name : String
  bucket_path : String
  rowStatus : String
  metadata : List (String × String)
  created_at : Nat
deriving Repr, DecidableEq

/-- Observable external state: the set of object keys present in the storage
bucket and the rows of the documents table. -/
structure World where
  objects : List String
  documents : List DBRow
deriving Repr, DecidableEq

/-- Outcome of each outbound call the upload and delete workflows make to the
external providers: whether the storage write, the metadata insert, and the
storage delete succeed. -/
structure Backend where
  storageUploadOk : Bool
  dbInsertOk : Bool
  storageRemoveOk : Bool
deriving Repr, DecidableEq

/-- Modelled from the spec: Supabase row-level security (spec section 4.3 and
glossary entry Row-level policy) — a table query executed with the token of
user_id only returns rows owned by that user.  The Supabase client itself is
external code not present under src. -/
def visibleRows (db : List DBRow) (user_id : String) : List DBRow :=
  db.filter (fun r => r.user_id == user_id)

/-- Embedding of DocumentRepository.get_by_id (lines 56-77): select rows
matching the id (over the rows the row-level policy exposes to user_id) and
return the first, none when the result set is empty. -/
def get_by_id (db : List DBRow) (document_id user_id : String) : Option DBRow :=
  ((visibleRows db user_id).filter (fun r => r.id == document_id)).head?

/-- Embedding of DocumentRepository.create (lines 14-54): insert a row with
status pending and metadata defaulted to the empty record; created_at is
assigned by the database (input now). -/
def repo_create (db : List DBRow) (document_id user_id file_name bucket_path : String)
    (metadata : Option (List (String × String))) (now : Nat) : DBRow × List DBRow :=
  let row : DBRow :=
    ⟨document_id, user_id, file_name, bucket_path, "pending", metadata.getD [], now⟩
  (row, db ++ [row])

/-- Embedding of DocumentRepository.delete (lines 119-140): delete the rows
matching the id among those the row-level policy exposes to user_id, and
report whether any row was removed. -/
def repo_delete (db : List DBRow) (document_id user_id : String) :
    List DBRow × Bool :=
  let removed := db.filter (fun r => r.user_id == user_id && r.id == document_id)
  let remaining := db.filter (fun r => !(r.user_id == user_id && r.id == document_id))
  (remaining, !removed.isEmpty)

/-- Embedding of DocumentRepository.update_status (lines 142-174): set the
status on every row matching the id; when the optional error message is
truthy (neither None nor the empty string) the metadata field is overwritten
with the single-entry record error ↦ message.  The boolean input ok models
the try block: when the underlying call raises, the table is unchanged and
False is returned. -/
def update_status (ok : Bool) (db : List DBRow) (document_id new_status : String)
    (error_message : Option String) : List DBRow × Bool :=
  if ok then
    let truthy := match error_message with
      | some m => !(m == "")
      | none => false
    let db' := db.map (fun r =>
      if r.id == document_id then
        { r with rowStatus := new_status,
                 metadata := match error_message with
                   | some m => if truthy then [("error", m)] else r.metadata
                   | none => r.metadata }
      else r)
    (db', !(db.filter (fun r => r.id == document_id)).isEmpty)
  else
    (db, false)

/-- Embedding of DocumentRepository.list_by_user (lines 79-117) together with
its descending order clause: insert a row into a list already sorted by
created_at descending. -/
def insertDesc (r : DBRow) : List DBRow → List DBRow
  | [] => [r]
  | x :: xs => if x.created_at < r.created_at then r :: x :: xs else x :: insertDesc r xs

/-- Sort rows by created_at descending (the order by clause of the select in
list_by_user). -/
def sortDesc : List DBRow → List DBRow
  | [] => []
  | x :: xs => insertDesc x (sortDesc xs)

/-- Embedding of DocumentRepository.list_by_user (lines 79-117): rows of the
user ordered by created_at descending, windowed by the inclusive range
(offset, offset + limit - 1), paired with a separate exact count of all rows
of the user.  The boolean input ok models the try block: when either query
raises, the pair (empty list, 0) is returned. -/
def list_by_user (ok : Bool) (db : List DBRow) (user_id : String)
    (limit offset : Nat) : List DBRow × Nat :=
  if ok then
    let mine := db.filter (fun r => r.user_id == user_id)
    (((sortDesc mine).drop offset).take limit, mine.length)
  else
    ([], 0)

/-- Embedding of DocumentService.get_document (src/services/document_service.py,
lines 108-130): look the row up through the repository and raise 404 when no
row comes back. -/
def get_document (db : List DBRow) (document_id user_id : String) :
    Except HTTPError DBRow :=
  match get_by_id db document_id user_id with
  | some d => .ok d
  | none => .error ⟨404, "Document not found"⟩

/-- Embedding of DocumentService.delete_document (lines 151-181): look the
document up (404 when absent), best-effort remove the storage object
(failure logged and swallowed), then delete the metadata row, raising 500
when no row was removed. -/
def delete_document (be : Backend) (w : World) (document_id user_id : String) :
    Except HTTPError Bool × World :=
  match get_document w.documents document_id user_id with
  | .error e => (.error e, w)
  | .ok doc =>
    let objects' := if be.storageRemoveOk then w.objects.erase doc.bucket_path else w.objects
    let (db', removedAny) := repo_delete w.documents document_id user_id
    if removedAny then
      (.ok true, ⟨objects', db'⟩)
    else
      (.error ⟨500, "Failed to delete document"⟩, ⟨objects', db'⟩)

/-- Embedding of DocumentService.upload_document (src/services/document_service.py,
lines 22-106).  Inputs beyond the request: the generated uuid4 document_id,
the database-assigned timestamp now, and the Backend outcomes of the
outbound calls.  A ValueError escaping generate_storage_path is caught by
the outer handler as the generic 500.  On storage-write success and
metadata-insert failure, the compensating storage delete is attempted and
its own failure swallowed, and 500 with the metadata detail is raised. -/
def upload_document (be : Backend) (w : World) (file : Option UploadFile)
    (user_id : String) (metadata : Option (List (String × String)))
    (document_id : String) (now : Nat) : Except HTTPError DBRow × World :=
  match file with
  | none => (.error ⟨400, "No file provided"⟩, w)
  | some f =>
    match validate_pdf (some f) 5 ["application/pdf"] with
    | .error e => (.error e, w)
    | .ok _ =>
      match generate_storage_path user_id document_id f.filename with
      | none => (.error ⟨500, "Upload failed"⟩, w)
      | some (_, storage_path) =>
        if be.storageUploadOk then
          let w1 : World := ⟨w.objects ++ [storage_path], w.documents⟩
          if be.dbInsertOk then
            let (row, db') := repo_create w1.documents document_id user_id
              f.filename storage_path metadata now
            (.ok row, ⟨w1.objects, db'⟩)
          else
            let objects' := if be.storageRemoveOk then w1.objects.erase storage_path else w1.objects
            (.error ⟨500, "Failed to create document record"⟩, ⟨objects', w1.documents⟩)
        else
          (.error ⟨500, "Failed to upload file to storage"⟩, w)

/-- Embedding of AuthService.logout (src/services/auth_service.py, lines
194-207): the provider sign-out call either succeeds or raises (its outcome
is the input); either way the except branch swallows the failure and the
method returns None. -/
def auth_logout (signOutOutcome : Except String Unit) : Except HTTPError Unit :=
  match signOutOutcome with
  | .ok _ => .ok ()
  | .error _ => .ok ()

/-- Embedding of AuthController.handle_logout together with the POST
/auth/logout route (status 200): both the service call and the handler catch
every failure, so the route answers 200 with the fixed message. -/
def handle_logout (signOutOutcome : Except String Unit) : Nat × String :=
  match auth_logout signOutOutcome with
  | .ok _ => (200, "Logged out successfully")
  | .error _ => (200, "Logged out successfully")

/-- Names for the five ordered checks of the validator, following the
wording of the claim and of spec section 4.1. -/
inductive CheckFail
  | missingFile
  | unsupportedType
  | badExtension
  | tooLarge
  | emptyFile
deriving Repr, DecidableEq

/-- Written from the words of the specification (section 4.1) and of the
claim, independently of the code: the first failing check among (1) file
present, (2) declared content type allowed, (3) filename ending
case-insensitively in .pdf, (4) byte length at most the size limit, (5)
byte length strictly positive; none when all five pass. -/
def spec_first_failure (file : Option UploadFile) (max_size_mb : Nat)
    (allowed_types : List String) : Option CheckFail :=
  match file with
  | none => some .missingFile
  | some f =>
    if f.contentType ∈ allowed_types then
      if strEndsWith (strLower f.filename) ".pdf" then
        if f.sizeBytes ≤ max_size_mb * 1024 * 1024 then
          if 0 < f.sizeBytes then none
          else some .emptyFile
        else some .tooLarge
      else some .badExtension
    else some .unsupportedType

/-- Status code of a validator outcome: none on success. -/
def resultStatus : Except HTTPError Unit → Option Nat
  | .ok _ => none
  | .error e => some e.statusCode

/-- C9: for every token and every provider-side outcome of the sign-out call,
logout returns without raising, and POST /auth/logout answers 200 with the
fixed success message. -/
theorem logout_always_succeeds (signOutOutcome : Except String Unit) :
    auth_logout signOutOutcome = .ok () ∧
    handle_logout signOutOutcome = (200, "Logged out successfully") := by
  cases signOutOutcome <;> simp [auth_logout, handle_logout]

/-- C10: list_by_user never raises; when the underlying query or count
raises, it returns the pair (empty list, 0), which is exactly what it
returns for a user with no documents, so a backend failure is
indistinguishable from an empty library. -/
theorem list_by_user_failure_is_empty (db : List DBRow) (user_id : String)
    (limit offset : Nat) :
    list_by_user false db user_id limit offset = ([], 0) ∧
    list_by_user true [] user_id limit offset = ([], 0) := by
  simp [list_by_user, sortDesc]

/-- C5: whenever validation fails, upload_document raises exactly the
validator error and the storage bucket and documents table are untouched. -/
theorem upload_rejects_without_side_effects (be : Backend) (w : World)
    (file : Option UploadFile) (user_id : String)
    (metadata : Option (List (String × String))) (document_id : String) (now : Nat)
    (e : HTTPError)
    (hv : validate_pdf file 5 ["application/pdf"] = .error e) :
    upload_document be w file user_id metadata document_id now = (.error e, w) := by
  cases file with
  | none =>
      simp only [validate_pdf] at hv
      simp only [upload_document]
      rw [Except.error.injEq] at hv
      rw [hv]
  | some f =>
      simp [upload_document, hv]

theorem upload_rejects_without_side_effects_witness :
    validate_pdf (some ⟨"notes.txt", "text/plain", 9⟩) 5 ["application/pdf"]
      = .error ⟨400, "Invalid file type. Only PDF files are allowed. Got: text/plain"⟩ ∧
    upload_document ⟨true, true, true⟩ ⟨["u/old"], []⟩ (some ⟨"notes.txt", "text/plain", 9⟩)
        "u" none "d" 7
      = (.error ⟨400, "Invalid file type. Only PDF files are allowed. Got: text/plain"⟩,
         ⟨["u/old"], []⟩) :=
  ⟨by decide,
   upload_rejects_without_side_effects ⟨true, true, true⟩ ⟨["u/old"], []⟩
     (some ⟨"notes.txt", "text/plain", 9⟩) "u" none "d" 7 _ (by decide)⟩

/-- C4: validate_pdf performs the five checks in the order given by the
specification and short-circuits on the first failure — the code result is
determined by the first failing spec check, with 400 No file provided, 400
on MIME type, 400 on extension, 413 on size, and 400 File is empty; the
0-byte empty.pdf with content type application/pdf passes the first four
checks and is rejected by the fifth. -/
theorem validate_pdf_check_order (file : Option UploadFile) (max_size_mb : Nat)
    (allowed_types : List String) :
    (spec_first_failure file max_size_mb allowed_types = none →
      validate_pdf file max_size_mb allowed_types = .ok ()) ∧
    (spec_first_failure file max_size_mb allowed_types = some .missingFile →
      validate_pdf file max_size_mb allowed_types = .error ⟨400, "No file provided"⟩) ∧
    (spec_first_failure file max_size_mb allowed_types = some .unsupportedType →
      resultStatus (validate_pdf file max_size_mb allowed_types) = some 400) ∧
    (spec_first_failure file max_size_mb allowed_types = some .badExtension →
      validate_pdf file max_size_mb allowed_types
        = .error ⟨400, "File must have .pdf extension"⟩) ∧
    (spec_first_failure file max_size_mb allowed_types = some .tooLarge →
      resultStatus (validate_pdf file max_size_mb allowed_types) = some 413) ∧
    (spec_first_failure file max_size_mb allowed_types = some .emptyFile →
      validate_pdf file max_size_mb allowed_types = .error ⟨400, "File is empty"⟩) ∧
    validate_pdf (some ⟨"empty.pdf", "application/pdf", 0⟩) 5 ["application/pdf"]
      = .error ⟨400, "File is empty"⟩ ∧
    spec_first_failure (some ⟨"empty.pdf", "application/pdf", 0⟩) 5 ["application/pdf"]
      = some .emptyFile := by
  refine ⟨?_, ?_, ?_, ?_, ?_, ?_, by decide, by decide⟩ <;>
    (intro h
     cases file with
     | none => simp_all [spec_first_failure, validate_pdf, resultStatus]
     | some f =>
         simp only [spec_first_failure] at h
         simp only [validate_pdf, resultStatus]
         split_ifs at h ⊢ <;> simp_all <;> omega)

theorem validate_pdf_check_order_witness :
    spec_first_failure (some ⟨"big.pdf", "application/pdf", 6000000⟩) 5 ["application/pdf"]
      = some .tooLarge ∧
    resultStatus (validate_pdf (some ⟨"big.pdf", "application/pdf", 6000000⟩) 5
      ["application/pdf"]) = some 413 :=
  ⟨by decide,
   (validate_pdf_check_order (some ⟨"big.pdf", "application/pdf", 6000000⟩) 5
     ["application/pdf"]).2.2.2.2.1 (by decide)⟩

/-- C1: when the storage write succeeds and the metadata insert fails,
upload_document attempts the compensating delete of the just-written object,
swallows the outcome of that delete (the reported error is the metadata one
whether or not the delete succeeds), fails with 500 Failed to create
document record, and leaves the documents table exactly as it was. -/
theorem upload_compensates_on_insert_failure (be : Backend) (w : World)
    (f : UploadFile) (user_id : String) (metadata : Option (List (String × String)))
    (document_id : String) (now : Nat) (s : String)
    (hup : be.storageUploadOk = true) (hins : be.dbInsertOk = false)
    (hv : validate_pdf (some f) 5 ["application/pdf"] = .ok ())
    (hs : sanitize_filename f.filename = some s)
    (hfresh : (user_id ++ "/" ++ document_id ++ "_" ++ s) ∉ w.objects) :
    upload_document be w (some f) user_id metadata document_id now =
      (.error ⟨500, "Failed to create document record"⟩,
       ⟨if be.storageRemoveOk then w.objects
        else w.objects ++ [user_id ++ "/" ++ document_id ++ "_" ++ s],
        w.documents⟩) := by
  simp only [upload_document, hv, generate_storage_path, hs, Option.map_some', hup, hins,
    if_true, Bool.false_eq_true, if_false]
  cases hrem : be.storageRemoveOk with
  | true =>
      simp only [if_true]
      rw [List.erase_append_right _ hfresh, List.erase_cons_head]
      simp
  | false => simp

theorem upload_compensates_on_insert_failure_witness :
    validate_pdf (some ⟨"doc.pdf", "application/pdf", 4⟩) 5 ["application/pdf"] = .ok () ∧
    sanitize_filename "doc.pdf" = some "doc.pdf" ∧
    upload_document ⟨true, false, true⟩ ⟨[], []⟩ (some ⟨"doc.pdf", "application/pdf", 4⟩)
        "u" none "d" 0
      = (.error ⟨500, "Failed to create document record"⟩, ⟨[], []⟩) := by
  refine ⟨by decide, by decide, ?_⟩
  have h := upload_compensates_on_insert_failure ⟨true, false, true⟩ ⟨[], []⟩
    ⟨"doc.pdf", "application/pdf", 4⟩ "u" none "d" 0 "doc.pdf"
    rfl rfl (by decide) (by decide) (by decide)
  simpa using h

/-- C3: for a document id whose rows are all owned by someone other than the
requesting user, the row-level-scoped lookup returns no row, so both
get_document and delete_document fail with 404 Document not found (not 403),
and delete_document leaves the world untouched. -/
theorem foreign_document_not_found (be : Backend) (w : World)
    (document_id user_id : String)
    (hforeign : ∀ r ∈ w.documents, r.id = document_id → r.user_id ≠ user_id) :
    get_document w.documents document_id user_id
      = .error ⟨404, "Document not found"⟩ ∧
    delete_document be w document_id user_id
      = (.error ⟨404, "Document not found"⟩, w) := by
  have hnone : get_by_id w.documents document_id user_id = none := by
    unfold get_by_id visibleRows
    have : (List.filter (fun r => r.id == document_id)
        (List.filter (fun r => r.user_id == user_id) w.documents)) = [] := by
      rw [List.filter_eq_nil_iff]
      intro r hr
      have hmem := List.mem_of_mem_filter hr
      have huser : r.user_id = user_id := by
        have := List.of_mem_filter hr
        simpa using this
      simp only [beq_iff_eq]
      intro hid
      exact hforeign r hmem hid huser
    rw [this]
    rfl
  constructor
  · simp [get_document, hnone]
  · simp [delete_document, get_document, hnone]

theorem foreign_document_not_found_witness :
    (∀ r ∈ ([⟨"d1", "alice", "f.pdf", "alice/d1_f.pdf", "pending", [], 3⟩] : List DBRow),
      r.id = "d1" → r.user_id ≠ "bob") ∧
    get_document [⟨"d1", "alice", "f.pdf", "alice/d1_f.pdf", "pending", [], 3⟩] "d1" "bob"
      = .error ⟨404, "Document not found"⟩ ∧
    delete_document ⟨true, true, true⟩
        ⟨["alice/d1_f.pdf"], [⟨"d1", "alice", "f.pdf", "alice/d1_f.pdf", "pending", [], 3⟩]⟩
        "d1" "bob"
      = (.error ⟨404, "Document not found"⟩,
         ⟨["alice/d1_f.pdf"], [⟨"d1", "alice", "f.pdf", "alice/d1_f.pdf", "pending", [], 3⟩]⟩) :=
  ⟨by decide,
   (foreign_document_not_found ⟨true, true, true⟩
     ⟨["alice/d1_f.pdf"], [⟨"d1", "alice", "f.pdf", "alice/d1_f.pdf", "pending", [], 3⟩]⟩
     "d1" "bob" (by decide)).1,
   (foreign_document_not_found ⟨true, true, true⟩
     ⟨["alice/d1_f.pdf"], [⟨"d1", "alice", "f.pdf", "alice/d1_f.pdf", "pending", [], 3⟩]⟩
     "d1" "bob" (by decide)).2⟩

/-- C8: with a non-empty error message, update_status sets the status on every
row matching the id and overwrites the metadata field with exactly the
single-entry record error ↦ message (no merge with prior metadata), leaves
non-matching rows unchanged, and returns true exactly when some row matched
the id. -/
theorem update_status_overwrites_metadata (db : List DBRow)
    (document_id new_status m : String) (hm : m ≠ "") :
    (∀ r ∈ (update_status true db document_id new_status (some m)).1,
        r.id = document_id → r.rowStatus = new_status ∧ r.metadata = [("error", m)]) ∧
    (∀ r ∈ (update_status true db document_id new_status (some m)).1,
        r.id ≠ document_id → r ∈ db) ∧
    ((update_status true db document_id new_status (some m)).2 = true ↔
        ∃ r ∈ db, r.id = document_id) := by
  have htruthy : (!(m == "")) = true := by simpa using hm
  refine ⟨?_, ?_, ?_⟩
  · intro r hr hid
    simp only [update_status, if_true, htruthy, List.mem_map] at hr
    obtain ⟨r0, hr0, heq⟩ := hr
    by_cases h0 : r0.id = document_id
    · simp only [h0, beq_self_eq_true, if_true] at heq
      subst heq
      simp
    · have : (r0.id == document_id) = false := by simpa using h0
      simp only [this, Bool.false_eq_true, if_false] at heq
      subst heq
      exact absurd hid h0
  · intro r hr hid
    simp only [update_status, if_true, htruthy, List.mem_map] at hr
    obtain ⟨r0, hr0, heq⟩ := hr
    by_cases h0 : r0.id = document_id
    · simp only [h0, beq_self_eq_true, if_true] at heq
      subst heq
      simp at hid
    · have : (r0.id == document_id) = false := by simpa using h0
      simp only [this, Bool.false_eq_true, if_false] at heq
      subst heq
      exact hr0
  · simp only [update_status, if_true]
    simp [List.isEmpty_iff, List.filter_eq_nil_iff]

theorem update_status_overwrites_metadata_witness :
    ("boom" : String) ≠ "" ∧
    ((⟨"d1", "u", "f.pdf", "u/d1_f.pdf", "failed", [("error", "boom")], 3⟩ : DBRow).rowStatus
        = "failed" ∧
     (⟨"d1", "u", "f.pdf", "u/d1_f.pdf", "failed", [("error", "boom")], 3⟩ : DBRow).metadata
        = [("error", "boom")]) :=
  ⟨by decide,
   (update_status_overwrites_metadata
       [⟨"d1", "u", "f.pdf", "u/d1_f.pdf", "pending", [("title", "t")], 3⟩]
       "d1" "failed" "boom" (by decide)).1
     ⟨"d1", "u", "f.pdf", "u/d1_f.pdf", "failed", [("error", "boom")], 3⟩
     (by decide) (by decide)⟩

theorem insertDesc_perm (r : DBRow) (l : List DBRow) :
    (insertDesc r l).Perm (r :: l) := by
  induction l with
  | nil => rfl
  | cons x xs ih =>
      unfold insertDesc
      by_cases h : x.created_at < r.created_at
      · simp [h]
      · simp only [h, if_false]
        exact (ih.cons x).trans (List.Perm.swap r x xs)

theorem sortDesc_perm (l : List DBRow) : (sortDesc l).Perm l := by
  induction l with
  | nil => rfl
  | cons x xs ih =>
      unfold sortDesc
      exact (insertDesc_perm x (sortDesc xs)).trans (ih.cons x)

theorem insertDesc_sorted (r : DBRow) (l : List DBRow)
    (h : List.Pairwise (fun a b => b.created_at ≤ a.created_at) l) :
    List.Pairwise (fun a b => b.created_at ≤ a.created_at) (insertDesc r l) := by
  induction l with
  | nil => simp [insertDesc]
  | cons x xs ih =>
      rw [List.pairwise_cons] at h
      obtain ⟨hx, hxs⟩ := h
      unfold insertDesc
      by_cases hc : x.created_at < r.created_at
      · simp only [hc, if_true]
        rw [List.pairwise_cons]
        refine ⟨?_, ?_⟩
        · intro y hy
          rcases List.mem_cons.mp hy with hy | hy
          · subst hy; exact Nat.le_of_lt hc
          · exact Nat.le_trans (hx y hy) (Nat.le_of_lt hc)
        · rw [List.pairwise_cons]
          exact ⟨hx, hxs⟩
      · simp only [hc, if_false]
        rw [List.pairwise_cons]
        refine ⟨?_, ih hxs⟩
        intro y hy
        have hy' := (insertDesc_perm r xs).mem_iff.mp hy
        rcases List.mem_cons.mp hy' with hy' | hy'
        · subst hy'; exact Nat.le_of_not_lt hc
        · exact hx y hy'

theorem sortDesc_sorted (l : List DBRow) :
    List.Pairwise (fun a b => b.created_at ≤ a.created_at) (sortDesc l) := by
  induction l with
  | nil => simp [sortDesc]
  | cons x xs ih => exact insertDesc_sorted x (sortDesc xs) ih

/-- C6: list_by_user returns at most limit rows, the window being the slice
starting at offset of the rows of the user sorted by created_at descending
(a permutation of exactly the rows of that user), and pairs it with the
separate exact count of all rows of that user — independent of limit and
offset. -/
theorem list_by_user_window_and_total (db : List DBRow) (user_id : String)
    (limit offset : Nat) :
    (list_by_user true db user_id limit offset).1.length ≤ limit ∧
    (list_by_user true db user_id limit offset).1
      = ((sortDesc (db.filter (fun r => r.user_id == user_id))).drop offset).take limit ∧
    (sortDesc (db.filter (fun r => r.user_id == user_id))).Perm
      (db.filter (fun r => r.user_id == user_id)) ∧
    List.Pairwise (fun a b => b.created_at ≤ a.created_at)
      (list_by_user true db user_id limit offset).1 ∧
    (list_by_user true db user_id limit offset).2
      = (db.filter (fun r => r.user_id == user_id)).length := by
  refine ⟨?_, by simp [list_by_user], sortDesc_perm _, ?_, by simp [list_by_user]⟩
  · simp only [list_by_user, if_true]
    exact List.length_take_le _ _
  · simp only [list_by_user, if_true]
    have hs : List.Sublist
        (((sortDesc (db.filter (fun r => r.user_id == user_id))).drop offset).take limit)
        (sortDesc (db.filter (fun r => r.user_id == user_id))) :=
      (List.take_sublist _ _).trans (List.drop_sublist _ _)
    exact (sortDesc_sorted _).sublist hs

theorem mem_sanitized_base_kept (f : String) (c : Char)
    (h : c ∈ (sanitized_base f).data) : keptChar c = true := by
  simp only [sanitized_base] at h
  exact List.of_mem_filter h

theorem rsplitDot_mem (s a b : String) (h : rsplitDot s = some (a, b)) :
    (∀ c ∈ a.data, c ∈ s.data) ∧ (∀ c ∈ b.data, c ∈ s.data) := by
  unfold rsplitDot at h
  cases hd : (s.data.reverse).dropWhile (fun c => c ≠ '.') with
  | nil => rw [hd] at h; simp at h
  | cons x stemRev =>
      rw [hd] at h
      simp only [Option.some.injEq, Prod.mk.injEq] at h
      obtain ⟨ha, hb⟩ := h
      constructor
      · intro c hc
        rw [← ha] at hc
        have h1 : c ∈ stemRev := List.mem_reverse.mp hc
        have h2 : c ∈ (s.data.reverse).dropWhile (fun c => c ≠ '.') := by
          rw [hd]; exact List.mem_cons_of_mem x h1
        exact List.mem_reverse.mp ((List.dropWhile_sublist _).mem h2)
      · intro c hc
        rw [← hb] at hc
        have h1 : c ∈ (s.data.reverse).takeWhile (fun c => c ≠ '.') :=
          List.mem_reverse.mp hc
        exact List.mem_reverse.mp ((List.takeWhile_sublist _).mem h1)

theorem sanitize_filename_kept (f s : String) (h : sanitize_filename f = some s) :
    ∀ c ∈ s.data, keptChar c = true := by
  simp only [sanitize_filename] at h
  by_cases hlen : (sanitized_base f).length > 255
  · rw [if_pos hlen] at h
    cases hr : rsplitDot (sanitized_base f) with
    | none => rw [hr] at h; simp at h
    | some p =>
        rw [hr] at h
        simp only [Option.map_some', Option.some.injEq] at h
        obtain ⟨hp1, hp2⟩ := rsplitDot_mem (sanitized_base f) p.1 p.2 (by rw [hr])
        intro c hc
        rw [← h] at hc
        rw [String.data_append, String.data_append] at hc
        rcases List.mem_append.mp hc with hc | hc
        · rcases List.mem_append.mp hc with hc | hc
          · exact mem_sanitized_base_kept f c (hp1 c ((List.take_sublist _ _).mem hc))
          · have hdot : c = '.' := by simpa using hc
            subst hdot; decide
        · exact mem_sanitized_base_kept f c (hp2 c hc)
  · rw [if_neg hlen] at h
    simp only [Option.some.injEq] at h
    intro c hc
    rw [← h] at hc
    exact mem_sanitized_base_kept f c hc

/-- C2 (amended): sanitize_filename keeps only the base name and keeps
exactly the characters matched by the Python classes backslash-w and
backslash-s together with hyphen and dot — a set larger than the claimed
[A-Za-z0-9_.\- ] since it includes whitespace such as tab — and whenever
sanitization succeeds the storage key of generate_storage_path lies
strictly within the user_id/ per-user namespace: everything after that
slash is one single component (no slash inside, given the uuid contains
none) and is neither the double-dot nor the single-dot component. -/
theorem sanitize_storage_path_confined (f user_id document_id s : String)
    (hdid : ('/' : Char) ∉ document_id.data)
    (hs : sanitize_filename f = some s) :
    (∀ c ∈ s.data, keptChar c = true) ∧
    generate_storage_path user_id document_id f
      = some (document_id, user_id ++ "/" ++ document_id ++ "_" ++ s) ∧
    ('/' : Char) ∉ (document_id ++ "_" ++ s).data ∧
    (document_id ++ "_" ++ s) ≠ ".." ∧
    (document_id ++ "_" ++ s) ≠ "." := by
  have hkept := sanitize_filename_kept f s hs
  have hdata : (document_id ++ "_" ++ s).data = document_id.data ++ '_' :: s.data := by
    rw [String.data_append, String.data_append, List.append_assoc]
    rfl
  have hund : ('_' : Char) ∈ (document_id ++ "_" ++ s).data := by
    rw [hdata]; exact List.mem_append_right _ (List.mem_cons_self _ _)
  refine ⟨hkept, by simp [generate_storage_path, hs], ?_, ?_, ?_⟩
  · rw [hdata]
    intro hmem
    rcases List.mem_append.mp hmem with h | h
    · exact hdid h
    · rcases List.mem_cons.mp h with h | h
      · exact absurd h (by decide)
      · exact absurd (hkept '/' h) (by decide)
  · intro heq
    rw [heq] at hund
    exact absurd hund (by decide)
  · intro heq
    rw [heq] at hund
    exact absurd hund (by decide)

theorem sanitize_storage_path_confined_witness :
    (('/' : Char) ∉ ("d" : String).data) ∧
    sanitize_filename "../../etc/passwd" = some "passwd" ∧
    (generate_storage_path "u" "d" "../../etc/passwd"
        = some ("d", "u" ++ "/" ++ "d" ++ "_" ++ "passwd") ∧
     ('/' : Char) ∉ ("d" ++ "_" ++ "passwd" : String).data ∧
     ("d" ++ "_" ++ "passwd" : String) ≠ ".." ∧
     ("d" ++ "_" ++ "passwd" : String) ≠ ".") :=
  ⟨by decide, by decide,
   (sanitize_storage_path_confined "../../etc/passwd" "u" "d" "passwd"
     (by decide) (by decide)).2⟩

/-- C2 counterexample: the tab character lies outside the character set
[A-Za-z0-9_.\- ] named by the claim, yet sanitize_filename keeps it, because
the Python class backslash-s of the actual substitution matches every
whitespace character and not only the space. -/
theorem sanitize_charset_counterexample :
    sanitize_filename "a\tb.pdf" = some "a\tb.pdf" ∧
    ('\t' ∈ ("a\tb.pdf" : String).data) ∧
    specCharSet '\t' = false :=
  ⟨by decide, by decide, by decide⟩

theorem rsplitDot_split (a b : String) (hb : ('.' : Char) ∉ b.data) :
    rsplitDot (a ++ "." ++ b) = some (a, b) := by
  have hdata : (a ++ "." ++ b).data = a.data ++ '.' :: b.data := by
    rw [String.data_append, String.data_append, List.append_assoc]
    rfl
  have hrev : (a.data ++ '.' :: b.data).reverse = b.data.reverse ++ '.' :: a.data.reverse := by
    rw [List.reverse_append, List.reverse_cons, List.append_assoc]
    rfl
  have hallb : ∀ x ∈ b.data.reverse, (fun c => decide (c ≠ '.')) x = true := by
    intro x hx
    simp only [ne_eq, decide_eq_true_eq]
    intro heq
    exact hb (heq ▸ List.mem_reverse.mp hx)
  have hdropb : b.data.reverse.dropWhile (fun c => decide (c ≠ '.')) = [] :=
    List.dropWhile_eq_nil_iff.mpr hallb
  have htakeb : b.data.reverse.takeWhile (fun c => decide (c ≠ '.')) = b.data.reverse :=
    List.takeWhile_eq_self_iff.mpr hallb
  have hdrop : ((a ++ "." ++ b).data.reverse).dropWhile (fun c => decide (c ≠ '.'))
      = '.' :: a.data.reverse := by
    rw [hdata, hrev, List.dropWhile_append, hdropb]
    simp [List.dropWhile_cons]
  have htake : ((a ++ "." ++ b).data.reverse).takeWhile (fun c => decide (c ≠ '.'))
      = b.data.reverse := by
    rw [hdata, hrev, List.takeWhile_append, htakeb]
    simp [List.takeWhile_cons]
  simp only [rsplitDot, hdrop, htake, List.reverse_reverse]

/-- C7 (amended): when the sanitized form exceeds 255 characters and contains
at least one dot, sanitize_filename returns the first 250 characters of the
stem (the part before the last dot) with the extension after that dot
reattached; when it exceeds 255 characters and contains no dot the
two-name unpacking of rsplit raises (no result), so the claimed whether or
not a dot is present does not hold. -/
theorem sanitize_truncates_long_names (f stem ext : String)
    (hlen : (sanitized_base f).length > 255)
    (hsplit : sanitized_base f = stem ++ "." ++ ext)
    (hext : ('.' : Char) ∉ ext.data) :
    sanitize_filename f = some (String.mk (stem.data.take 250) ++ "." ++ ext) := by
  simp only [sanitize_filename]
  rw [if_pos hlen, hsplit, rsplitDot_split stem ext hext]
  rfl

set_option maxRecDepth 8000 in
theorem sanitize_truncates_long_names_witness :
    ((sanitized_base (String.mk (List.replicate 256 'a') ++ ".pdf")).length > 255 ∧
     sanitized_base (String.mk (List.replicate 256 'a') ++ ".pdf")
       = String.mk (List.replicate 256 'a') ++ "." ++ "pdf" ∧
     ('.' : Char) ∉ ("pdf" : String).data) ∧
    sanitize_filename (String.mk (List.replicate 256 'a') ++ ".pdf")
      = some (String.mk ((String.mk (List.replicate 256 'a')).data.take 250) ++ "." ++ "pdf") :=
  ⟨⟨by decide, by decide, by decide⟩,
   sanitize_truncates_long_names (String.mk (List.replicate 256 'a') ++ ".pdf")
     (String.mk (List.replicate 256 'a')) "pdf" (by decide) (by decide) (by decide)⟩

set_option maxRecDepth 8000

/-- C7 counterexample: a filename whose sanitized form is 256 characters with
no dot makes the two-name unpacking of rsplit raise ValueError, so
sanitize_filename has no defined result there, refuting the claim that a
result is returned whether or not the name contains a dot. -/
theorem sanitize_overlong_no_dot_crashes :
    sanitize_filename (String.mk (List.replicate 256 'a')) = none ∧
    (sanitized_base (String.mk (List.replicate 256 'a'))).length = 256 :=
  ⟨by decide, by decide⟩
